/-
Verification of the WildPass flight-search backend (LNGU/wildpass).

Shallow embedding of:
  * the trip-combination engine `find_optimal_trips` (module `trip_planner`,
    absent from the source tree; modelled from spec sections 4.3 and 6),
  * the `/api/trip-planner` search-window loop of `backend/app.py`,
  * the `/api/search` cache-key function `get_cache_key` of `backend/app.py`,
  * the normalizers `_convert_to_app_format` / `_parse_datetime` /
    `_is_gowild_eligible` of `backend/serpapi_flights.py`,
    `backend/kiwi_api.py` and `backend/flight_api_fallback.py`.

Machine integers are modelled as `Int`/`Nat` (Python integers are unbounded,
so no wrap-around modelling is needed).  Network fetches are abstracted as
function parameters; everything else is translated from the source.
-/
import Mathlib

namespace WildPass

/-! ### Small string helpers shared by the normalizer models -/

/-- Zero-padded two-digit decimal rendering, as produced by `strftime`
patterns such as `%m`, `%d`, `%I`, `%M`. -/
def pad2 (n : Nat) : String :=
  if n < 10 then "0" ++ toString n else toString n

/-- Python's `str.lower()` (the strings the adapters lower are ASCII fare
and class names, so per-character lowering suffices). -/
def strToLower (s : String) : String :=
  String.mk (s.toList.map Char.toLower)

/-- Zero-padded four-digit decimal rendering, as produced by `strftime`'s
`%Y` for the years appearing in this application. -/
def pad4 (n : Nat) : String :=
  if n < 10 then "000" ++ toString n
  else if n < 100 then "00" ++ toString n
  else if n < 1000 then "0" ++ toString n
  else toString n

/-- A parsed wall-clock datetime (the fields of a Python `datetime` that the
code consults; timezone offsets, when parsed, are discarded, matching the
code's use of plain local strings). -/
structure DT where
  year : Nat
  month : Nat
  day : Nat
  hour : Nat
  minute : Nat
deriving DecidableEq, Repr

/-- `strftime('%Y-%m-%d')`. -/
def fmtDate (dt : DT) : String :=
  pad4 dt.year ++ "-" ++ pad2 dt.month ++ "-" ++ pad2 dt.day

/-- `strftime('%I:%M %p')`: 12-hour clock display time. -/
def fmt12 (dt : DT) : String :=
  let h12 := if dt.hour % 12 = 0 then 12 else dt.hour % 12
  pad2 h12 ++ ":" ++ pad2 dt.minute ++ " " ++ (if dt.hour < 12 then "AM" else "PM")

/-- Gregorian leap-year test (as in Python's `calendar`/`datetime`). -/
def isLeap (y : Nat) : Bool :=
  (y % 4 = 0 && y % 100 ≠ 0) || y % 400 = 0

/-- Number of days in a month, used by `datetime`'s field validation. -/
def daysInMonth (y m : Nat) : Nat :=
  if m = 2 then (if isLeap y then 29 else 28)
  else if m = 4 || m = 6 || m = 9 || m = 11 then 30
  else 31

/-- Range validation performed by the `datetime` constructor. -/
def validDT (dt : DT) : Bool :=
  1 ≤ dt.month && dt.month ≤ 12 && 1 ≤ dt.day && dt.day ≤ daysInMonth dt.year dt.month
    && dt.hour ≤ 23 && dt.minute ≤ 59

/-! ### Trip combination engine

Modelled from the spec: the module `trip_planner` (imported by
`backend/app.py` as `from trip_planner import find_optimal_trips`) is not in
the source tree; these definitions follow spec sections 3, 4.3 and 6
(`FlightLeg`, `TripCandidate`, scoring and sorting of the engine). -/

/-- The `trip_length_unit` / `max_duration_unit` values `"days"`/`"hours"`. -/
inductive DurUnit where
  | days
  | hours
deriving DecidableEq, Repr

/-- Minutes per unit: a duration of `n` units is `n * unitMinutes u` minutes. -/
def unitMinutes : DurUnit → Int
  | .days => 1440
  | .hours => 60

/-- `"days"` / `"hours"` as the raw request strings (used by the façade's
`target_duration` formatting). -/
def unitStr : DurUnit → String
  | .days => "days"
  | .hours => "hours"

/-- Modelled from the spec: one normalized flight leg (spec section 3) with
the fields the engine consumes.  `dep`/`arr` are wall-clock instants in
minutes; `is_return_pool` marks membership of the return-leg pool (spec
section 4.3 consumes an outbound pool and a return pool while section 6's
signature passes one `flight_pool`, so the pool a leg belongs to is recorded
on the leg). -/
structure FlightLeg where
  origin : String
  destination : String
  dep : Int
  arr : Int
  duration : Int
  stops : Nat
  price : Int
  is_return_pool : Bool
deriving DecidableEq, Repr

/-- Modelled from the spec: a trip candidate (spec section 3): an outbound
leg, an optional return leg, the total trip duration, the combined price and
the both-legs-nonstop flag used by the tie-break of section 4.3. -/
structure TripCandidate where
  outbound : FlightLeg
  ret : Option FlightLeg
  duration : Int
  price : Int
  nonstop : Bool
deriving DecidableEq, Repr

/-- Modelled from the spec: candidate construction (spec sections 3 and 4.3):
for a round trip the duration is the elapsed wall time from outbound
departure to return arrival and the price is the combined price; one-way
candidates take the outbound leg's own duration and price. -/
def mkCandidate (o : FlightLeg) (r : Option FlightLeg) : TripCandidate :=
  match r with
  | none => ⟨o, none, o.duration, o.price, o.stops = 0⟩
  | some rl => ⟨o, some rl, rl.arr - o.dep, o.price + rl.price, o.stops = 0 && rl.stops = 0⟩

/-- Modelled from the spec: the sort key of spec section 4.3 step 4, the
tuple (duration-delta, nonstop-preference-violation as 0/1, combined
price). -/
def tripKey (target : Int) (nonstop_preferred : Bool) (c : TripCandidate) : Nat × Nat × Int :=
  ((c.duration - target).natAbs,
   if nonstop_preferred && !c.nonstop then 1 else 0,
   c.price)

/-- Lexicographic non-strict order on the sort-key tuples. -/
def keyLe (x y : Nat × Nat × Int) : Prop :=
  x.1 < y.1 ∨ (x.1 = y.1 ∧ (x.2.1 < y.2.1 ∨ (x.2.1 = y.2.1 ∧ x.2.2 ≤ y.2.2)))

instance keyLe.dec : ∀ x y, Decidable (keyLe x y) := by
  intro x y
  unfold keyLe
  exact inferInstance

theorem keyLe_total (x y : Nat × Nat × Int) : keyLe x y ∨ keyLe y x := by
  obtain ⟨a, b, c⟩ := x
  obtain ⟨d, e, f⟩ := y
  simp only [keyLe]
  omega

theorem keyLe_trans {x y z : Nat × Nat × Int} (h₁ : keyLe x y) (h₂ : keyLe y z) : keyLe x z := by
  obtain ⟨a, b, c⟩ := x
  obtain ⟨d, e, f⟩ := y
  obtain ⟨g, i, j⟩ := z
  simp only [keyLe] at h₁ h₂ ⊢
  omega

/-- Candidate comparison used by the engine's sort: compare sort keys. -/
def candLe (target : Int) (nonstop_preferred : Bool) (a b : TripCandidate) : Prop :=
  keyLe (tripKey target nonstop_preferred a) (tripKey target nonstop_preferred b)

instance candLe.dec (target : Int) (p : Bool) : DecidableRel (candLe target p) :=
  fun a b => keyLe.dec _ _

instance candLe.total (target : Int) (p : Bool) : IsTotal TripCandidate (candLe target p) :=
  ⟨fun a b => keyLe_total _ _⟩

instance candLe.trans (target : Int) (p : Bool) : IsTrans TripCandidate (candLe target p) :=
  ⟨fun _ _ _ h₁ h₂ => keyLe_trans h₁ h₂⟩

/-- Modelled from the spec: the candidate pool of spec section 4.3 step 1:
the cross product of the outbound and return pools, degenerating to one-way
candidates over the outbound pool when the return pool is empty. -/
def buildCandidates (pool : List FlightLeg) : List TripCandidate :=
  let outbound := pool.filter (fun l => !l.is_return_pool)
  let retPool := pool.filter (fun l => l.is_return_pool)
  if retPool.isEmpty then
    outbound.map (fun o => mkCandidate o none)
  else
    outbound.flatMap (fun o => retPool.map (fun r => mkCandidate o (some r)))

/-- Modelled from the spec: `find_optimal_trips` (spec sections 4.3 and 6,
module `trip_planner` absent from the source tree): build candidates, drop
those exceeding the maximum duration when one is supplied, and sort
ascending by (duration-delta, nonstop-violation, combined price). -/
def find_optimal_trips (flight_pool : List FlightLeg) (trip_length : Int)
    (trip_length_unit : DurUnit) (nonstop_preferred : Bool)
    (max_duration : Option Int) (max_duration_unit : DurUnit) : List TripCandidate :=
  let target := trip_length * unitMinutes trip_length_unit
  let candidates := buildCandidates flight_pool
  let kept :=
    match max_duration with
    | none => candidates
    | some m => candidates.filter (fun c => c.duration ≤ m * unitMinutes max_duration_unit)
  List.insertionSort (candLe target nonstop_preferred) kept

theorem find_optimal_trips_nil (tl : Int) (u : DurUnit) (p : Bool)
    (md : Option Int) (mu : DurUnit) : find_optimal_trips [] tl u p md mu = [] := by
  cases md <;> simp [find_optimal_trips, buildCandidates]

/-! ### The `/api/trip-planner` endpoint of `backend/app.py`

`trip_planner` (app.py lines 461..559): validate the request, then search an
expanding window of departure dates (up to 30), accumulating every fetched
leg into `all_flights` and re-running `find_optimal_trips` over the whole
accumulated pool, stopping as soon as it returns a candidate.  The network
fetch `flight_client.search_flights` is abstracted as a function from (day
offset, return-date index) to the legs it yields. -/

/-- Python truthiness of an optional string request field (`data.get(...)`
yields `None` when absent; `''` and `None` are falsy). -/
def truthyStr : Option String → Bool
  | none => false
  | some s => s ≠ ""

/-- Python truthiness of an optional numeric request field (`None` and `0`
are falsy). -/
def truthyNum : Option Int → Bool
  | none => false
  | some n => n ≠ 0

/-- Python truthiness of a list request field (`[]` is falsy). -/
def truthyList (l : List String) : Bool :=
  !l.isEmpty

/-- app.py lines 480..484: the request is answered with the 400
"Missing required fields" error exactly when
`not origins or not destinations or not departure_date or not trip_length`. -/
def trip_planner_rejects (origins destinations : List String)
    (departureDate : Option String) (tripLength : Option Int) : Bool :=
  !truthyList origins || !truthyList destinations
    || !truthyStr departureDate || !truthyNum tripLength

/-- app.py lines 513..526: the legs fetched during one iteration of the
window loop — the inner loop over the 5 candidate return dates, guarded by
`if FLIGHT_API_ENABLED and flight_client` (there is no mock fallback in this
endpoint).  `fetch d i` abstracts `flight_client.search_flights` at day
offset `d` and return-date index `i`. -/
def dayBatch (enabled : Bool) (fetch : Nat → Nat → List FlightLeg) (d : Nat) :
    List FlightLeg :=
  if enabled then (List.range 5).flatMap (fun i => fetch d i) else []

/-- The accumulated pool after the iterations for day offsets `0..n-1`
(`all_flights` is only ever extended, never reset). -/
def poolUpTo (enabled : Bool) (fetch : Nat → Nat → List FlightLeg) (n : Nat) :
    List FlightLeg :=
  (List.range n).flatMap (dayBatch enabled fetch)

/-- app.py lines 496..542: the `while len(optimal_trips) == 0 and
days_searched < max_days_to_search` loop, written with the remaining number
of iterations (`30 - days_searched`) as structural fuel.  Returns the
engine's result together with the final `days_searched` counter. -/
def searchGo (enabled : Bool) (fetch : Nat → Nat → List FlightLeg) (trip_length : Int)
    (u : DurUnit) (p : Bool) (md : Option Int) (mu : DurUnit) :
    Nat → Nat → List FlightLeg → List TripCandidate × Nat
  | 0, d, _ => ([], d)
  | fuel + 1, d, acc =>
    let acc2 := acc ++ dayBatch enabled fetch d
    let trips := find_optimal_trips acc2 trip_length u p md mu
    if trips.isEmpty then searchGo enabled fetch trip_length u p md mu fuel (d + 1) acc2
    else (trips, d)

/-- The loop entered with `all_flights = []`, `days_searched = 0` and the
bound `max_days_to_search = 30`. -/
def trip_planner_search (enabled : Bool) (fetch : Nat → Nat → List FlightLeg)
    (trip_length : Int) (u : DurUnit) (p : Bool) (md : Option Int) (mu : DurUnit) :
    List TripCandidate × Nat :=
  searchGo enabled fetch trip_length u p md mu 30 0 []

/-- The JSON body returned by `trip_planner` (app.py lines 544..551). -/
structure TPResponse where
  flights : List TripCandidate
  total_options : Nat
  target_duration : String
  days_searched : Nat
deriving DecidableEq, Repr

/-- app.py lines 544..551: serialize the search outcome — the first 20
results, the untruncated count, the formatted target duration
`f"{trip_length} {trip_length_unit}"`, and `days_searched + 1`. -/
def trip_planner_response (enabled : Bool) (fetch : Nat → Nat → List FlightLeg)
    (trip_length : Int) (u : DurUnit) (p : Bool) (md : Option Int) (mu : DurUnit) :
    TPResponse :=
  let r := trip_planner_search enabled fetch trip_length u p md mu
  { flights := r.1.take 20
    total_options := r.1.length
    target_duration := toString trip_length ++ " " ++ unitStr u
    days_searched := r.2 + 1 }

/-! ### Time-string parsing (`backend/serpapi_flights.py` lines 289..316)

Models of the two Python parsers the adapters use:
`datetime.strptime(s, '%Y-%m-%d %H:%M')` and `datetime.fromisoformat`.
`%Y` matches exactly four digits, the other fields one or two; the whole
string must be consumed; the `datetime` constructor validates ranges.
`fromisoformat` (CPython ≤ 3.10 grammar) takes a `YYYY-MM-DD` date,
optionally followed by a single separator character of any kind, a
`HH:MM[:SS]` time and an optional `±HH:MM` offset (fractional seconds are
omitted from the model; offsets are parsed, validated and discarded, since
the code only formats local fields). -/

/-- Read exactly `n` leading digits into an accumulator. -/
def readDigits : Nat → Nat → List Char → Option (Nat × List Char)
  | 0, acc, cs => some (acc, cs)
  | n + 1, acc, c :: cs =>
    if c.isDigit then readDigits n (acc * 10 + (c.toNat - 48)) cs else none
  | _ + 1, _, [] => none

/-- Read one or two leading digits, greedily, as `strptime`'s `\d{1,2}`. -/
def read12 : List Char → Option (Nat × List Char)
  | [] => none
  | c :: cs =>
    if c.isDigit then
      match cs with
      | c2 :: cs2 =>
        if c2.isDigit then some ((c.toNat - 48) * 10 + (c2.toNat - 48), cs2)
        else some (c.toNat - 48, cs)
      | [] => some (c.toNat - 48, [])
    else none

/-- Consume one expected literal character. -/
def expectChar (c : Char) : List Char → Option (List Char)
  | d :: cs => if d = c then some cs else none
  | [] => none

/-- `datetime.strptime(s, '%Y-%m-%d %H:%M')`. -/
def parseYmdHM (s : String) : Option DT := do
  let (y, r1) ← readDigits 4 0 s.toList
  let r2 ← expectChar '-' r1
  let (m, r3) ← read12 r2
  let r4 ← expectChar '-' r3
  let (d, r5) ← read12 r4
  let r6 ← expectChar ' ' r5
  let (h, r7) ← read12 r6
  let r8 ← expectChar ':' r7
  let (mi, r9) ← read12 r8
  if r9 = [] && validDT ⟨y, m, d, h, mi⟩ then some ⟨y, m, d, h, mi⟩ else none

/-- Optional `:SS` seconds field of `fromisoformat`. -/
def consumeSeconds : List Char → Option (List Char)
  | ':' :: rest => do
    let (sec, r) ← readDigits 2 0 rest
    if sec ≤ 59 then some r else none
  | cs => some cs

/-- Optional `±HH:MM` offset field of `fromisoformat`. -/
def consumeOffset : List Char → Option (List Char)
  | '+' :: rest => do
    let (oh, r1) ← readDigits 2 0 rest
    let r2 ← expectChar ':' r1
    let (om, r3) ← readDigits 2 0 r2
    if oh < 24 && om ≤ 59 then some r3 else none
  | '-' :: rest => do
    let (oh, r1) ← readDigits 2 0 rest
    let r2 ← expectChar ':' r1
    let (om, r3) ← readDigits 2 0 r2
    if oh < 24 && om ≤ 59 then some r3 else none
  | cs => some cs

/-- `datetime.fromisoformat`. -/
def fromIsoModel (s : String) : Option DT := do
  let (y, r1) ← readDigits 4 0 s.toList
  let r2 ← expectChar '-' r1
  let (m, r3) ← readDigits 2 0 r2
  let r4 ← expectChar '-' r3
  let (d, r5) ← readDigits 2 0 r4
  match r5 with
  | [] => if validDT ⟨y, m, d, 0, 0⟩ then some ⟨y, m, d, 0, 0⟩ else none
  | _sep :: r6 => do
    let (h, r7) ← readDigits 2 0 r6
    let r8 ← expectChar ':' r7
    let (mi, r9) ← readDigits 2 0 r8
    let r10 ← consumeSeconds r9
    let r11 ← consumeOffset r10
    if r11 = [] && validDT ⟨y, m, d, h, mi⟩ then some ⟨y, m, d, h, mi⟩ else none

/-- `SerpApiFlightSearch._parse_datetime` (serpapi_flights.py lines
289..316): split an upstream time string into a date string and a 12-hour
display time, falling back to the anchor date; the empty string
short-circuits to the `'N/A'` display. -/
def parse_datetime (datetime_str fallback_date : String) : String × String :=
  if datetime_str = "" then (fallback_date, "N/A")
  else
    match parseYmdHM datetime_str with
    | some dt => (fmtDate dt, fmt12 dt)
    | none =>
      if !(datetime_str.contains ' ') || !(datetime_str.contains '-') then
        (fallback_date, datetime_str)
      else
        match fromIsoModel datetime_str with
        | some dt => (fmtDate dt, fmt12 dt)
        | none => (fallback_date, datetime_str)

/-! ### SerpApi adapter (`backend/serpapi_flights.py`) -/

/-- One Google Flights segment, with the fields `_convert_to_app_format`
reads.  A missing `departure_airport`/`arrival_airport` object defaults to
`{}` in the source, which makes its `id`/`time` fields missing; that case is
collapsed into the `Option` fields here. -/
structure GFSegment where
  dep_id : Option String
  dep_time : Option String
  arr_id : Option String
  arr_time : Option String
  airline : Option String
  flight_number : Option String
  airplane : Option String
  travel_class : Option String
deriving DecidableEq, Repr

/-- One Google Flights itinerary result, with the fields the converter and
the eligibility check read (the passthrough fields `layovers`,
`carbon_emissions`, `legroom` and `booking_token`, consulted by no claim,
are omitted, as is the blackout annotation whose module `gowild_blackout`
is absent from the source tree). -/
structure GFResult where
  flights : List GFSegment
  total_duration : Option Nat
  price : Option Int
deriving DecidableEq, Repr

/-- The flight record `serpapi_flights._convert_to_app_format` emits. -/
structure SerpFlight where
  origin : String
  destination : String
  departure_date : String
  departure_time : String
  arrival_date : String
  arrival_time : String
  duration : String
  stops : Nat
  price : Int
  currency : String
  airline : String
  flight_number : String
  aircraft : String
  travel_class : String
  is_round_trip : Bool
  seats_remaining : Option Int
  gowild_eligible : Bool
deriving DecidableEq, Repr

/-- Python's substring membership `needle in hay`. -/
def containsSub (needle hay : String) : Bool :=
  decide (needle.toList <:+: hay.toList)

/-- `'Frontier' in airline_name or flight_number.startswith('F9')`
(serpapi_flights.py line 236). -/
def serpFrontierCheck (airline_name flight_number : String) : Bool :=
  containsSub "Frontier" airline_name || String.isPrefixOf "F9" flight_number

/-- The travel-class test inside `SerpApiFlightSearch._is_gowild_eligible`
(lines 330..335): first segment's `travel_class` (default `''`), lowered,
truthy and literally `'economy'` or `'basic economy'`. -/
def serpClassOk (segments : List GFSegment) : Bool :=
  match segments with
  | [] => false
  | s0 :: _ =>
    let tc := strToLower (s0.travel_class.getD "")
    tc ≠ "" && (tc == "economy" || tc == "basic economy")

/-- `SerpApiFlightSearch._is_gowild_eligible` (serpapi_flights.py lines
318..341): Frontier, then economy class, then the `price and price <= 99`
low-fare heuristic; no seat-count test exists in this adapter. -/
def serp_is_gowild_eligible (is_frontier : Bool) (price : Int)
    (segments : List GFSegment) : Bool :=
  if !is_frontier then false
  else if serpClassOk segments then true
  else if price ≠ 0 && price ≤ 99 then true
  else false

/-- `SerpApiFlightSearch._convert_to_app_format` (serpapi_flights.py lines
171..287): normalize one Google Flights result; `None` when the result has
no segments. -/
def serpConvert (gf : GFResult) (origin destination departure_date : String)
    (return_date : Option String) : Option SerpFlight :=
  match gf.flights with
  | [] => none
  | first :: rest =>
    let lastSeg := (first :: rest).getLast (List.cons_ne_nil first rest)
    let dep_time_str := first.dep_time.getD ""
    let arr_time_str := lastSeg.arr_time.getD ""
    let depPair := parse_datetime dep_time_str departure_date
    let arrPair := parse_datetime arr_time_str departure_date
    let total_minutes := gf.total_duration.getD 0
    let hrs := total_minutes / 60
    let mins := total_minutes % 60
    let duration_str :=
      if hrs ≠ 0 then toString hrs ++ "h " ++ toString mins ++ "m"
      else toString mins ++ "m"
    let airline_name := first.airline.getD "Unknown"
    let flight_number := first.flight_number.getD "N/A"
    let aircraft0 := first.airplane.getD "N/A"
    let aircraft := if aircraft0 = "" then "N/A" else aircraft0
    let price := gf.price.getD 0
    let is_frontier := serpFrontierCheck airline_name flight_number
    some
      { origin := first.dep_id.getD origin
        destination := lastSeg.arr_id.getD destination
        departure_date := depPair.1
        departure_time := depPair.2
        arrival_date := arrPair.1
        arrival_time := arrPair.2
        duration := duration_str
        stops := (first :: rest).length - 1
        price := price
        currency := "USD"
        airline := airline_name
        flight_number := flight_number
        aircraft := aircraft
        travel_class := first.travel_class.getD "Economy"
        is_round_trip := return_date.isSome
        seats_remaining := none
        gowild_eligible := serp_is_gowild_eligible is_frontier price gf.flights }

/-! ### Kiwi adapter eligibility (`backend/kiwi_api.py` lines 275..302) -/

/-- The fare-category test of `KiwiFlightSearch._is_gowild_eligible`:
`fare.category` (default `''`), truthy and, lowered, one of `'economy'`,
`'basic'`, `'economy_basic'`. -/
def kiwiFareOk (fare_category : String) : Bool :=
  fare_category ≠ ""
    && (strToLower fare_category == "economy" || strToLower fare_category == "basic"
        || strToLower fare_category == "economy_basic")

/-- `KiwiFlightSearch._is_gowild_eligible` (kiwi_api.py lines 275..302): the
dictionary lookups `kiwi_flight.get('fare', {}).get('category', '')` and
`kiwi_flight.get('availability', {}).get('seats', None)` are passed in as
the `fare_category` and `seats` arguments. -/
def kiwi_is_gowild_eligible (carrier_code : String) (price : Int)
    (fare_category : String) (seats : Option Int) : Bool :=
  if carrier_code ≠ "F9" then false
  else if kiwiFareOk fare_category then true
  else if price ≤ 99 then true
  else
    match seats with
    | some n => n ≤ 5
    | none => false

/-! ### AviationStack adapter (`backend/flight_api_fallback.py`) -/

/-- Days from 1970-01-01 for a civil date (the standard civil-from-days
inverse used to model `datetime` subtraction). -/
def daysFromCivil (y m d : Nat) : Int :=
  let yi : Int := if m ≤ 2 then (y : Int) - 1 else (y : Int)
  let era : Int := (if 0 ≤ yi then yi else yi - 399) / 400
  let yoe : Int := yi - era * 400
  let mp : Int := ((m : Int) + 9) % 12
  let doy : Int := (153 * mp + 2) / 5 + (d : Int) - 1
  let doe : Int := yoe * 365 + yoe / 4 - yoe / 100 + doy
  era * 146097 + doe - 719468

/-- Minutes since the epoch of a parsed wall-clock datetime. -/
def toMinutes (dt : DT) : Int :=
  daysFromCivil dt.year dt.month dt.day * 1440 + (dt.hour : Int) * 60 + (dt.minute : Int)

/-- `datetime.strptime(s[:19], '%Y-%m-%dT%H:%M:%S')` — the fallback parse of
the AviationStack converter. -/
def parseYmdTHMS (s : String) : Option DT := do
  let (y, r1) ← readDigits 4 0 s.toList
  let r2 ← expectChar '-' r1
  let (m, r3) ← read12 r2
  let r4 ← expectChar '-' r3
  let (d, r5) ← read12 r4
  let r6 ← expectChar 'T' r5
  let (h, r7) ← read12 r6
  let r8 ← expectChar ':' r7
  let (mi, r9) ← read12 r8
  let r10 ← expectChar ':' r9
  let (sec, r11) ← read12 r10
  if r11 = [] && sec ≤ 59 && validDT ⟨y, m, d, h, mi⟩ then some ⟨y, m, d, h, mi⟩
  else none

/-- The timestamp parsing of `AviationStackAPI._convert_to_app_format`
(flight_api_fallback.py lines 95..104): `fromisoformat` after replacing
`'Z'` with `'+00:00'`, then `strptime` of the first 19 characters; `none`
models the exception that makes the outer per-flight handler skip the
flight. -/
def asParseTime (s : String) : Option DT :=
  match fromIsoModel (s.replace "Z" "+00:00") with
  | some dt => some dt
  | none => parseYmdTHMS (s.take 19)

/-- One raw AviationStack flight, with the fields the converter reads
(`departure.scheduled`, `arrival.scheduled`, `airline.name`, `flight.iata`,
`aircraft.iata`; a missing parent object makes the nested field missing). -/
structure ASRaw where
  dep_scheduled : Option String
  arr_scheduled : Option String
  airline_name : Option String
  flight_iata : Option String
  aircraft_iata : Option String
deriving DecidableEq, Repr

/-- The flight record `AviationStackAPI._convert_to_app_format` emits (the
blackout annotation is omitted: its module `gowild_blackout` is absent from
the source tree and no claim consults it). -/
structure ASFlight where
  origin : String
  destination : String
  departure_time : String
  arrival_time : String
  departure_date : Option String
  arrival_date : Option String
  duration : String
  airline : String
  flight_number : String
  stops : Nat
  aircraft : String
  booking_class : String
  price : Option Int
  currency : String
  is_round_trip : Bool
  gowild_eligible : Bool
deriving DecidableEq, Repr

/-- One scheduled-time field of the AviationStack converter: an absent or
empty timestamp parses to "no datetime" (the code leaves `dep_dt`/`arr_dt`
as `None`), a parseable one to its datetime, and an unparseable non-empty
one raises inside the per-flight `try`, skipping the flight (outer
`none`). -/
def asTimeField (s : String) : Option (Option DT) :=
  if s = "" then some none else (asParseTime s).map some

/-- The duration string of the AviationStack converter (lines 106..113):
derived from the instant difference only when both instants parsed
(`hours = int(total_seconds // 3600)`, `minutes = int((total_seconds %
3600) // 60)` with Python floor semantics), otherwise it stays the empty
string. -/
def asDuration (depOpt arrOpt : Option DT) : String :=
  match depOpt, arrOpt with
  | some ddt, some adt =>
    let totalSeconds : Int := (toMinutes adt - toMinutes ddt) * 60
    let hrs := Int.fdiv totalSeconds 3600
    let mins := Int.fdiv (Int.fmod totalSeconds 3600) 60
    toString hrs ++ "h " ++ toString mins ++ "m"
  | _, _ => ""

/-- `AviationStackAPI._convert_to_app_format`, one flight (lines 82..144):
parse the scheduled times, then build the record; `price` is always `None`
and `gowild_eligible` always `True`. -/
def asConvertOne (f : ASRaw) (origin destination : String) : Option ASFlight :=
  match asTimeField (f.dep_scheduled.getD ""), asTimeField (f.arr_scheduled.getD "") with
  | some depOpt, some arrOpt =>
    some
      { origin := origin
        destination := destination
        departure_time := match depOpt with | some ddt => fmt12 ddt | none => "N/A"
        arrival_time := match arrOpt with | some adt => fmt12 adt | none => "N/A"
        departure_date := depOpt.map fmtDate
        arrival_date := arrOpt.map fmtDate
        duration := asDuration depOpt arrOpt
        airline := f.airline_name.getD "Frontier Airlines"
        flight_number := f.flight_iata.getD "N/A"
        stops := 0
        aircraft := f.aircraft_iata.getD "N/A"
        booking_class := "Economy"
        price := none
        currency := "USD"
        is_round_trip := false
        gowild_eligible := true }
  | _, _ => none

/-! ### The `/api/search` cache key (`backend/app.py` lines 111..113) -/

/-- `get_cache_key`: the origin and destination lists are sorted
(`sorted(...)`, modelled by a stable sort under the code-point order on
strings) and comma-joined into the key. -/
def get_cache_key (origins destinations : List String)
    (departure_date return_date trip_type : String) : String :=
  "flights_" ++ ",".intercalate (List.insertionSort (fun a b => a ≤ b) origins)
    ++ "_" ++ ",".intercalate (List.insertionSort (fun a b => a ≤ b) destinations)
    ++ "_" ++ departure_date ++ "_" ++ return_date ++ "_" ++ trip_type

/-! ### Helper lemmas about the search-window loop -/

theorem poolUpTo_zero (enabled : Bool) (fetch : Nat → Nat → List FlightLeg) :
    poolUpTo enabled fetch 0 = [] := rfl

theorem poolUpTo_succ (enabled : Bool) (fetch : Nat → Nat → List FlightLeg) (n : Nat) :
    poolUpTo enabled fetch (n + 1) = poolUpTo enabled fetch n ++ dayBatch enabled fetch n := by
  simp [poolUpTo, List.range_succ]

theorem poolUpTo_disabled (fetch : Nat → Nat → List FlightLeg) (n : Nat) :
    poolUpTo false fetch n = [] := by
  simp [poolUpTo, dayBatch]

/-- If the engine yields nothing on every pool the loop will consult, the
loop runs its remaining `fuel` iterations and exits with an empty result. -/
theorem searchGo_all_empty (enabled : Bool) (fetch : Nat → Nat → List FlightLeg)
    (tl : Int) (u : DurUnit) (p : Bool) (md : Option Int) (mu : DurUnit) :
    ∀ fuel d, (∀ e, d ≤ e → e < d + fuel →
        find_optimal_trips (poolUpTo enabled fetch (e + 1)) tl u p md mu = []) →
      searchGo enabled fetch tl u p md mu fuel d (poolUpTo enabled fetch d) = ([], d + fuel) := by
  intro fuel
  induction fuel with
  | zero => intro d _; simp [searchGo]
  | succ n ih =>
    intro d h
    have hd : find_optimal_trips (poolUpTo enabled fetch (d + 1)) tl u p md mu = [] :=
      h d (Nat.le_refl d) (by omega)
    have step : searchGo enabled fetch tl u p md mu (n + 1) d (poolUpTo enabled fetch d)
        = searchGo enabled fetch tl u p md mu n (d + 1) (poolUpTo enabled fetch (d + 1)) := by
      simp only [searchGo, ← poolUpTo_succ, hd, List.isEmpty_nil, if_true]
    rw [step, ih (d + 1) (fun e he1 he2 => h e (by omega) (by omega))]
    congr 1
    omega

/-- When the loop exits with a non-empty result at counter `ds`, that result
is the engine's output over the pool accumulated across day offsets
`0..ds`. -/
theorem searchGo_found (enabled : Bool) (fetch : Nat → Nat → List FlightLeg)
    (tl : Int) (u : DurUnit) (p : Bool) (md : Option Int) (mu : DurUnit) :
    ∀ fuel d trips ds,
      searchGo enabled fetch tl u p md mu fuel d (poolUpTo enabled fetch d) = (trips, ds) →
      trips ≠ [] →
      trips = find_optimal_trips (poolUpTo enabled fetch (ds + 1)) tl u p md mu := by
  intro fuel
  induction fuel with
  | zero =>
    intro d trips ds heq hne
    simp [searchGo] at heq
    exact absurd heq.1 hne
  | succ n ih =>
    intro d trips ds heq hne
    by_cases hd : (find_optimal_trips (poolUpTo enabled fetch (d + 1)) tl u p md mu).isEmpty
    · have step : searchGo enabled fetch tl u p md mu (n + 1) d (poolUpTo enabled fetch d)
          = searchGo enabled fetch tl u p md mu n (d + 1) (poolUpTo enabled fetch (d + 1)) := by
        simp only [searchGo, ← poolUpTo_succ, hd, if_true]
      rw [step] at heq
      exact ih (d + 1) trips ds heq hne
    · have hd' : (find_optimal_trips (poolUpTo enabled fetch (d + 1)) tl u p md mu).isEmpty
          = false := by
        simpa using hd
      have step : searchGo enabled fetch tl u p md mu (n + 1) d (poolUpTo enabled fetch d)
          = (find_optimal_trips (poolUpTo enabled fetch (d + 1)) tl u p md mu, d) := by
        simp only [searchGo, ← poolUpTo_succ, hd', Bool.false_eq_true, if_false]
      rw [step] at heq
      simp only [Prod.mk.injEq] at heq
      obtain ⟨rfl, rfl⟩ := heq
      rfl

/-! ### Claim theorems -/

/-- C1: the list returned by `find_optimal_trips` is sorted non-decreasing
by the tuple (absolute duration-delta against the target,
nonstop-preference-violation as 0/1, combined price): every earlier result
compares at most equal to every later one under that lexicographic order, so
equal-delta nonstop-preferred candidates never follow non-preferred ones and
lower combined price sorts ahead. -/
theorem C1_output_sorted (pool : List FlightLeg) (tl : Int) (u : DurUnit)
    (p : Bool) (md : Option Int) (mu : DurUnit) :
    List.Pairwise
      (fun a b => keyLe (tripKey (tl * unitMinutes u) p a) (tripKey (tl * unitMinutes u) p b))
      (find_optimal_trips pool tl u p md mu) := by
  unfold find_optimal_trips
  cases md
  · exact List.sorted_insertionSort (candLe (tl * unitMinutes u) p) _
  · exact List.sorted_insertionSort (candLe (tl * unitMinutes u) p) _

/-- C2 counterexample: with the fetch collaborator yielding nothing, the
trip-planner response after the exhausted 30-day window reports
`days_searched = 31`, not the bound 30 the claim states. -/
theorem C2_counterexample :
    (trip_planner_response true (fun _ _ => []) 2 .days false none .days).days_searched = 31
      ∧ (trip_planner_response true (fun _ _ => []) 2 .days false none .days).flights = []
      ∧ 31 ≠ 30 := by
  refine ⟨rfl, rfl, by decide⟩

/-- C2 (amended): when the accumulated pools never yield a matching
candidate, the loop stops at the 30-day bound and returns a successful empty
result (`flights = []`, `total_options = 0`) whose `days_searched` field is
31 — the bound plus one, produced by the uniform `days_searched + 1`
reporting — not 30. -/
theorem C2_amended (enabled : Bool) (fetch : Nat → Nat → List FlightLeg)
    (tl : Int) (u : DurUnit) (p : Bool) (md : Option Int) (mu : DurUnit)
    (h : ∀ d, d < 30 → find_optimal_trips (poolUpTo enabled fetch (d + 1)) tl u p md mu = []) :
    (trip_planner_response enabled fetch tl u p md mu).flights = []
      ∧ (trip_planner_response enabled fetch tl u p md mu).total_options = 0
      ∧ (trip_planner_response enabled fetch tl u p md mu).days_searched = 31 := by
  have hrun : searchGo enabled fetch tl u p md mu 30 0 (poolUpTo enabled fetch 0) = ([], 30) :=
    searchGo_all_empty enabled fetch tl u p md mu 30 0 (fun e _ he2 => h e (by omega))
  rw [poolUpTo_zero] at hrun
  simp [trip_planner_response, trip_planner_search, hrun]

/-- C2 witness: the amended statement at a concrete instance (no flights are
ever fetched, so no pool ever yields a candidate). -/
theorem C2_witness :
    (trip_planner_response false (fun _ _ => []) 7 .days false none .days).flights = []
      ∧ (trip_planner_response false (fun _ _ => []) 7 .days false none .days).total_options = 0
      ∧ (trip_planner_response false (fun _ _ => []) 7 .days false none .days).days_searched
          = 31 :=
  C2_amended false (fun _ _ => []) 7 .days false none .days (by decide)

/-- C3: when the search loop returns a non-empty result at internal counter
`ds`, that result is `find_optimal_trips` applied to the accumulation of
every leg fetched at offsets `0..ds` — and the accumulated pool only ever
grows (each pool is a prefix of the next). -/
theorem C3_pool_accumulation (enabled : Bool) (fetch : Nat → Nat → List FlightLeg)
    (tl : Int) (u : DurUnit) (p : Bool) (md : Option Int) (mu : DurUnit)
    (h : (trip_planner_search enabled fetch tl u p md mu).1 ≠ []) :
    (trip_planner_search enabled fetch tl u p md mu).1
        = find_optimal_trips
            (poolUpTo enabled fetch ((trip_planner_search enabled fetch tl u p md mu).2 + 1))
            tl u p md mu
      ∧ ∀ d, poolUpTo enabled fetch d <+: poolUpTo enabled fetch (d + 1) := by
  constructor
  · have hrun : searchGo enabled fetch tl u p md mu 30 0 (poolUpTo enabled fetch 0)
        = ((trip_planner_search enabled fetch tl u p md mu).1,
           (trip_planner_search enabled fetch tl u p md mu).2) := by
      rw [poolUpTo_zero]
      rfl
    exact searchGo_found enabled fetch tl u p md mu 30 0 _ _ hrun h
  · intro d
    exact ⟨dayBatch enabled fetch d, (poolUpTo_succ enabled fetch d).symm⟩

/-- C3 witness: a concrete fetch that yields one leg on day 0 produces a
non-empty result, equal to the engine's output on the accumulated pool. -/
theorem C3_witness :
    (trip_planner_search true
        (fun d i => if d = 0 && i = 0 then [⟨"DEN", "LAS", 0, 120, 120, 0, 59, false⟩] else [])
        2 .hours false none .days).1 ≠ []
      ∧ ((trip_planner_search true
            (fun d i => if d = 0 && i = 0 then [⟨"DEN", "LAS", 0, 120, 120, 0, 59, false⟩]
                        else [])
            2 .hours false none .days).1
          = find_optimal_trips
              (poolUpTo true
                (fun d i => if d = 0 && i = 0 then [⟨"DEN", "LAS", 0, 120, 120, 0, 59, false⟩]
                            else [])
                ((trip_planner_search true
                    (fun d i => if d = 0 && i = 0 then
                        [⟨"DEN", "LAS", 0, 120, 120, 0, 59, false⟩] else [])
                    2 .hours false none .days).2 + 1))
              2 .hours false none .days
          ∧ ∀ d, poolUpTo true
                (fun d i => if d = 0 && i = 0 then [⟨"DEN", "LAS", 0, 120, 120, 0, 59, false⟩]
                            else [])
                d
              <+: poolUpTo true
                (fun d i => if d = 0 && i = 0 then [⟨"DEN", "LAS", 0, 120, 120, 0, 59, false⟩]
                            else [])
                (d + 1)) :=
  ⟨by decide,
   C3_pool_accumulation true
     (fun d i => if d = 0 && i = 0 then [⟨"DEN", "LAS", 0, 120, 120, 0, 59, false⟩] else [])
     2 .hours false none .days (by decide)⟩

/-- C4 counterexample: the AviationStack adapter normalizes a flight
operated by a non-target carrier (`"Delta Air Lines"`, which does not
contain `"Frontier"`) with `gowild_eligible = true`, so a carrier mismatch
does not yield `false` in every adapter. -/
theorem C4_counterexample :
    (asConvertOne ⟨none, none, some "Delta Air Lines", none, none⟩ "DEN" "LAS").map
        ASFlight.gowild_eligible = some true
      ∧ (asConvertOne ⟨none, none, some "Delta Air Lines", none, none⟩ "DEN" "LAS").map
          ASFlight.airline = some "Delta Air Lines"
      ∧ containsSub "Frontier" "Delta Air Lines" = false := by
  refine ⟨rfl, rfl, by decide⟩

/-- C4 (amended): in the Kiwi and SerpApi adapters `gowild_eligible` is true
only if the carrier matches (Kiwi: code `F9`; SerpApi: name containing
`Frontier` or an `F9` flight number) and one of the adapter's fare-class /
low-fare / last-seat tests passes — Kiwi's fare classes are
`economy`/`basic`/`economy_basic` with a seats ≤ 5 test, SerpApi's are
`economy`/`basic economy` with a truthy-price ≤ 99 test and no seat test;
the AviationStack adapter instead sets `gowild_eligible` unconditionally
true on every flight it normalizes. -/
theorem C4_amended :
    (∀ (cc : String) (p : Int) (fc : String) (seats : Option Int),
        kiwi_is_gowild_eligible cc p fc seats = true →
          cc = "F9" ∧ (kiwiFareOk fc = true ∨ p ≤ 99 ∨ ∃ n, seats = some n ∧ n ≤ 5))
      ∧ (∀ (fr : Bool) (p : Int) (segs : List GFSegment),
          serp_is_gowild_eligible fr p segs = true →
            fr = true ∧ (serpClassOk segs = true ∨ (p ≠ 0 ∧ p ≤ 99)))
      ∧ (∀ (f : ASRaw) (o d : String) (fl : ASFlight),
          asConvertOne f o d = some fl → fl.gowild_eligible = true) := by
  refine ⟨?_, ?_, ?_⟩
  · intro cc p fc seats h
    unfold kiwi_is_gowild_eligible at h
    by_cases hcc : cc = "F9"
    · refine ⟨hcc, ?_⟩
      rw [if_neg (by simpa using hcc)] at h
      by_cases hfc : kiwiFareOk fc = true
      · exact Or.inl hfc
      · rw [if_neg (by simpa using hfc)] at h
        by_cases hp : p ≤ 99
        · exact Or.inr (Or.inl hp)
        · rw [if_neg hp] at h
          cases seats with
          | none => simp at h
          | some n => exact Or.inr (Or.inr ⟨n, rfl, by simpa using h⟩)
    · rw [if_pos (by simpa using hcc)] at h
      simp at h
  · intro fr p segs h
    unfold serp_is_gowild_eligible at h
    cases fr with
    | false => simp at h
    | true =>
      refine ⟨rfl, ?_⟩
      simp only [Bool.not_true, Bool.false_eq_true, if_false] at h
      by_cases hcl : serpClassOk segs = true
      · exact Or.inl hcl
      · rw [if_neg (by simpa using hcl)] at h
        by_cases hp : (decide ¬p = 0 && decide (p ≤ 99)) = true
        · simp at hp
          exact Or.inr hp
        · rw [if_neg ?_] at h
          · simp at h
          · simpa using hp
  · intro f o d fl h
    unfold asConvertOne at h
    split at h
    · simp only [Option.some.injEq] at h
      rw [← h]
    · exact absurd h (by simp)

/-- C4 witness: the amended statement's Kiwi component applied at a concrete
eligible input (carrier `F9`, price 200, fare category `basic`). -/
theorem C4_witness :
    "F9" = "F9"
      ∧ (kiwiFareOk "basic" = true ∨ (200 : Int) ≤ 99
          ∨ ∃ n, (none : Option Int) = some n ∧ n ≤ 5) :=
  C4_amended.1 "F9" 200 "basic" none (by decide)

/-- C5 counterexample: a SerpApi payload with one segment and neither a
price nor a total duration normalizes to `price = 0` and
`duration = "0m"` — a missing price yields 0 and missing duration
information yields a zero-minute duration. -/
theorem C5_counterexample :
    (serpConvert ⟨[⟨none, none, none, none, none, none, none, none⟩], none, none⟩
        "DEN" "LAS" "2026-03-01" none).map SerpFlight.price = some 0
      ∧ (serpConvert ⟨[⟨none, none, none, none, none, none, none, none⟩], none, none⟩
          "DEN" "LAS" "2026-03-01" none).map SerpFlight.duration = some "0m" := by
  refine ⟨rfl, rfl⟩

/-- C5 (amended): missing seat counts map to null in the SerpApi adapter and
the AviationStack adapter never reports a price (always null); but the
SerpApi adapter defaults a missing upstream price to `0` and renders a
missing `total_duration` as the string `"0m"`, and the AviationStack adapter
reports an unknown (non-derivable) duration as the empty string, with the
departure date null when the scheduled departure is absent. -/
theorem C5_amended :
    (∀ (gf : GFResult) (o d dd : String) (rd : Option String) (fl : SerpFlight),
        serpConvert gf o d dd rd = some fl →
          fl.seats_remaining = none ∧ fl.price = gf.price.getD 0
            ∧ (gf.total_duration = none → fl.duration = "0m"))
      ∧ (∀ (f : ASRaw) (o d : String) (fl : ASFlight),
          asConvertOne f o d = some fl →
            fl.price = none
              ∧ (f.dep_scheduled.getD "" = "" →
                  fl.duration = "" ∧ fl.departure_date = none)) := by
  constructor
  · intro gf o d dd rd fl h
    unfold serpConvert at h
    split at h
    · exact absurd h (by simp)
    · simp only [Option.some.injEq] at h
      subst h
      refine ⟨rfl, rfl, ?_⟩
      intro hd
      rw [hd]
      rfl
  · intro f o d fl h
    unfold asConvertOne at h
    split at h
    · rename_i depOpt arrOpt hdep harr
      simp only [Option.some.injEq] at h
      subst h
      refine ⟨rfl, ?_⟩
      intro hmiss
      rw [hmiss] at hdep
      simp only [asTimeField] at hdep
      simp at hdep
      subst hdep
      cases arrOpt
      · exact ⟨rfl, rfl⟩
      · exact ⟨rfl, rfl⟩
    · exact absurd h (by simp)

/-- C5 witness: the amended statement's SerpApi component applied at a
concrete payload lacking price and duration. -/
theorem C5_witness :
    ((serpConvert ⟨[⟨none, none, none, none, none, none, none, none⟩], none, none⟩
        "DEN" "LAS" "2026-03-05" none).map SerpFlight.seats_remaining) = some none := by
  obtain ⟨fl, hfl⟩ :
      ∃ fl, serpConvert ⟨[⟨none, none, none, none, none, none, none, none⟩], none, none⟩
        "DEN" "LAS" "2026-03-05" none = some fl := ⟨_, rfl⟩
  rw [hfl]
  exact congrArg some
    (C5_amended.1 ⟨[⟨none, none, none, none, none, none, none, none⟩], none, none⟩
      "DEN" "LAS" "2026-03-05" none fl hfl).1

/-- C6 counterexample: a request with non-empty origins/destinations, a
departure date and `tripLength = 0` is rejected by the missing-required-
fields validation (`not trip_length` is true for `0`), contradicting the
claim that zero is accepted. -/
theorem C6_counterexample :
    trip_planner_rejects ["DEN"] ["MCO"] (some "2026-03-01") (some 0) = true := by
  decide

/-- C6 (amended): a strictly negative target trip duration passes the
missing-required-fields validation (given the other required fields) and the
engine tolerates it totally — its output is a permutation of all constructed
candidates, none dropped and no crash; a target of exactly zero, however, is
rejected by the validation as a missing field because Python truthiness
conflates `0` with absent. -/
theorem C6_amended (t : Int) (ht : t < 0) (origins destinations : List String)
    (ho : origins ≠ []) (hd : destinations ≠ []) (date : String) (hdate : date ≠ "")
    (pool : List FlightLeg) (u : DurUnit) (p : Bool) (mu : DurUnit) :
    trip_planner_rejects origins destinations (some date) (some t) = false
      ∧ (find_optimal_trips pool t u p none mu).Perm (buildCandidates pool) := by
  constructor
  · have ht0 : t ≠ 0 := by omega
    simp [trip_planner_rejects, truthyList, truthyStr, truthyNum, ho, hd, hdate, ht0]
  · unfold find_optimal_trips
    exact List.perm_insertionSort _ _

/-- C6 witness: the amended statement at target `-1` with a one-leg pool. -/
theorem C6_witness :
    trip_planner_rejects ["DEN"] ["MCO"] (some "2026-03-01") (some (-1)) = false
      ∧ (find_optimal_trips [⟨"DEN", "MCO", 0, 120, 120, 0, 50, false⟩] (-1) .days false
            none .days).Perm
          (buildCandidates [⟨"DEN", "MCO", 0, 120, 120, 0, 50, false⟩]) :=
  C6_amended (-1) (by decide) ["DEN"] ["MCO"] (by decide) (by decide) "2026-03-01" (by decide)
    [⟨"DEN", "MCO", 0, 120, 120, 0, 50, false⟩] .days false .days

/-- C7 counterexample: the empty upstream time string is an input
`_parse_datetime` fails to parse, yet the returned display time is `"N/A"`,
not the raw input string. -/
theorem C7_counterexample :
    parse_datetime "" "2026-01-01" = ("2026-01-01", "N/A")
      ∧ parseYmdHM "" = none ∧ fromIsoModel "" = none
      ∧ ("N/A" : String) ≠ "" := by
  refine ⟨rfl, rfl, rfl, by decide⟩

/-- C7 (amended): `_parse_datetime` is total, and on every non-empty input
either returns a successfully parsed (date, 12-hour display time) pair or
falls back to the caller-supplied anchor date together with the raw input
string; the empty string alone falls back to the anchor date with the
sentinel display `"N/A"` instead of the raw string. -/
theorem C7_amended (s fb : String) (h : s ≠ "") :
    parse_datetime s fb = (fb, s)
      ∨ ∃ dt, (parseYmdHM s = some dt ∨ fromIsoModel s = some dt)
          ∧ parse_datetime s fb = (fmtDate dt, fmt12 dt) := by
  unfold parse_datetime
  rw [if_neg h]
  cases hp : parseYmdHM s with
  | some dt => exact Or.inr ⟨dt, Or.inl rfl, rfl⟩
  | none =>
    by_cases hc : (!(s.contains ' ') || !(s.contains '-')) = true
    · rw [if_pos hc]
      exact Or.inl rfl
    · rw [if_neg hc]
      cases hiso : fromIsoModel s with
      | some dt => exact Or.inr ⟨dt, Or.inr rfl, rfl⟩
      | none => exact Or.inl rfl

/-- C7 witness: the amended statement at a concrete unparseable non-empty
input. -/
theorem C7_witness :
    ("garbage" : String) ≠ ""
      ∧ (parse_datetime "garbage" "2026-01-01" = ("2026-01-01", "garbage")
          ∨ ∃ dt, (parseYmdHM "garbage" = some dt ∨ fromIsoModel "garbage" = some dt)
              ∧ parse_datetime "garbage" "2026-01-01" = (fmtDate dt, fmt12 dt)) :=
  ⟨by decide, C7_amended "garbage" "2026-01-01" (by decide)⟩

/-- C8: the trip-planner façade serializes exactly the first at-most-20
elements of the loop's (engine-produced) ordered result list as `flights`,
reports `total_options` as the length of the full untruncated list,
`target_duration` as the formatted `"{trip_length} {trip_length_unit}"`
string, and a `days_searched` count (the loop counter plus one). -/
theorem C8_serialization (enabled : Bool) (fetch : Nat → Nat → List FlightLeg)
    (tl : Int) (u : DurUnit) (p : Bool) (md : Option Int) (mu : DurUnit) :
    (trip_planner_response enabled fetch tl u p md mu).flights
        = (trip_planner_search enabled fetch tl u p md mu).1.take 20
      ∧ (trip_planner_response enabled fetch tl u p md mu).flights.length ≤ 20
      ∧ (trip_planner_response enabled fetch tl u p md mu).total_options
          = (trip_planner_search enabled fetch tl u p md mu).1.length
      ∧ (trip_planner_response enabled fetch tl u p md mu).target_duration
          = toString tl ++ " " ++ unitStr u
      ∧ (trip_planner_response enabled fetch tl u p md mu).days_searched
          = (trip_planner_search enabled fetch tl u p md mu).2 + 1 := by
  refine ⟨rfl, ?_, rfl, rfl, rfl⟩
  simp [trip_planner_response]

/-- C9: the `/api/search` cache key is invariant under permutation of the
origin list and of the destination list: permuted requests with equal dates
and trip type produce identical cache keys and hence share one cache
entry. -/
theorem C9_cache_key_perm (o1 o2 d1 d2 : List String) (dd rd tt : String)
    (ho : List.Perm o1 o2) (hd : List.Perm d1 d2) :
    get_cache_key o1 d1 dd rd tt = get_cache_key o2 d2 dd rd tt := by
  have hsort : ∀ l1 l2 : List String, List.Perm l1 l2 →
      List.insertionSort (fun a b => a ≤ b) l1 = List.insertionSort (fun a b => a ≤ b) l2 := by
    intro l1 l2 hp
    have h1 : List.Perm (List.insertionSort (fun a b : String => a ≤ b) l1)
        (List.insertionSort (fun a b : String => a ≤ b) l2) :=
      (List.perm_insertionSort _ l1).trans (hp.trans (List.perm_insertionSort _ l2).symm)
    exact List.eq_of_perm_of_sorted h1 (List.sorted_insertionSort _ l1)
      (List.sorted_insertionSort _ l2)
  unfold get_cache_key
  rw [hsort o1 o2 ho, hsort d1 d2 hd]

/-- C9 witness: two concretely permuted origin/destination lists yield the
same cache key. -/
theorem C9_witness :
    get_cache_key ["LAX", "DEN"] ["MIA", "MCO"] "2026-03-01" "2026-03-05" "round-trip"
      = get_cache_key ["DEN", "LAX"] ["MCO", "MIA"] "2026-03-01" "2026-03-05" "round-trip" :=
  C9_cache_key_perm ["LAX", "DEN"] ["DEN", "LAX"] ["MIA", "MCO"] ["MCO", "MIA"]
    "2026-03-01" "2026-03-05" "round-trip" (by decide) (by decide)

/-- C10: with the flight client unconfigured (`FLIGHT_API_ENABLED` false)
the trip-planner loop never adds a leg to its pool — whatever the fetch
collaborator would have returned — so the request iterates the whole 30-day
window (`days_searched = 31` reported) and returns an empty `flights` list
with `total_options = 0`. -/
theorem C10_disabled_empty (fetch : Nat → Nat → List FlightLeg)
    (tl : Int) (u : DurUnit) (p : Bool) (md : Option Int) (mu : DurUnit) :
    (trip_planner_response false fetch tl u p md mu).flights = []
      ∧ (trip_planner_response false fetch tl u p md mu).total_options = 0
      ∧ (trip_planner_response false fetch tl u p md mu).days_searched = 31 := by
  have hrun : searchGo false fetch tl u p md mu 30 0 (poolUpTo false fetch 0) = ([], 30) :=
    searchGo_all_empty false fetch tl u p md mu 30 0
      (fun e _ _ => by rw [poolUpTo_disabled, find_optimal_trips_nil])
  rw [poolUpTo_zero] at hrun
  simp [trip_planner_response, trip_planner_search, hrun]

end WildPass
